import Mathlib

/-!
Shallow embedding of the request-scheduling core of the `vk-io` SDK
(`src/api/index.mjs`): the queue of `Request`s, the re-entrancy-guarded
scheduler loop (`worker` / its `work` tick), the transport invoker
(`callMethod`) and the error classifier (`handleError`).

Asynchronous effects (delays, future settlements, collaborator calls) are
recorded as an explicit event trace; the mutable instance state
(`queue`, `started`, `suspended`, base URL) is threaded as a structure.
The outcome of each `await` on an external collaborator (the transport
fetch, the account-verification run, the captcha handler callback) is an
explicit environment parameter, so each code path of the source is a
branch of the corresponding Lean function.
-/

namespace VkIo

/-- Modelled from the spec: `MINIMUM_TIME_INTERVAL_API` comes from the
`utils/constants` module, which is not in the source fragment.  The spec's
pacing scenario ("3 per 1000ms" gives ~333ms spacing) fixes the global
minimum interval at 1000ms.  Kept as a rational because JavaScript divides
it by `apiLimit` without truncation. -/
def MINIMUM_TIME_INTERVAL_API : ℚ := 1000

/-- Modelled from the spec: default API base URL from the `utils/constants`
module (not in the source fragment). -/
def BASE_URL_API : String := "https://api.vk.com/method/"

/-- Modelled from the spec: the error code for the rate-limit-exceeded
rejection (`apiErrors.TOO_MANY_REQUESTS`, constants module not in the
source fragment).  Only its identity and distinctness from the other two
codes matter to the classifier. -/
def TOO_MANY_REQUESTS : Nat := 6

/-- Modelled from the spec: the error code for the human-verification
challenge (`apiErrors.CAPTCHA_REQUIRED`, constants module not in the
source fragment). -/
def CAPTCHA_REQUIRED : Nat := 14

/-- Modelled from the spec: the error code for the account-validation
challenge (`apiErrors.USER_VALIDATION_REQUIRED`, constants module not in
the source fragment). -/
def USER_VALIDATION_REQUIRED : Nat := 17

/-- Minimal JSON-ish scalar value, enough to carry response payloads. -/
inductive JVal
  | null
  | num (n : Int)
  | str (s : String)
deriving DecidableEq, Repr

/-- Modelled from the spec: the structured application error (`APIError`
class, `errors` module not in the source fragment), restricted to the
fields `handleError` reads: `code`, `captchaSid`, `captchaImg`,
`redirectUri`. -/
structure APIError where
  code : Nat
  captchaSid : String
  captchaImg : String
  redirectUri : String
deriving DecidableEq, Repr

/-- Modelled from the spec: an `ExecuteError` wraps one per-step error
payload reported by an execute-style batch response. -/
structure ExecuteError where
  error : JVal
deriving DecidableEq, Repr

/-- Parsed JSON body of a transport response, with key presence modelled
by `Option` (the source tests `'error' in response` and
`'response' in response`). -/
structure JsonResponse where
  error : Option APIError
  response : Option JVal
  execute_errors : Option (List JVal)
deriving DecidableEq, Repr

/-- The value with which a Request's result future is resolved:
the unwrapped `response.response`, the whole envelope when the
`response` key is absent, or the composite execute-style value. -/
inductive Settled
  | value (v : JVal)
  | envelope (r : JsonResponse)
  | composite (response : Option JVal) (errors : List ExecuteError)
deriving DecidableEq, Repr

/-- An error settling a future: a structured application error, a
transport-level failure, or an error produced by an external
collaborator (captcha handler passing an `Error`). -/
inductive Err
  | api (e : APIError)
  | transport (id : Nat)
  | collaborator (id : Nat)
deriving DecidableEq, Repr

/-- Modelled from the spec: the `Request` entity (`api/request.mjs` is not
in the source fragment): method name, mutable params map, attempt counter
starting at 0, and the optional challenge ("captcha") future recorded as
a presence flag (the source tests `'captcha' in request`). -/
structure Request where
  method : String
  params : List (String × String)
  attempts : Nat
  captcha : Bool
deriving DecidableEq, Repr

/-- Modelled from the spec: `Request#addAttempt` increments `attempts` and
returns the incremented counter (the call site is
`request.addAttempt() <= options.apiAttempts` and the spec says the
counter starts at 0 and is incremented on each transport failure). -/
def Request.addAttempt (r : Request) : Request × Nat :=
  let r1 := { r with attempts := r.attempts + 1 }
  (r1, r1.attempts)

/-- JavaScript object property assignment `obj[k] = v` on the params map:
replace the value when the key is present, append otherwise. -/
def setParam (ps : List (String × String)) (k v : String) : List (String × String) :=
  if ps.any (fun p => p.1 = k) then
    ps.map (fun p => if p.1 = k then (k, v) else p)
  else
    ps ++ [(k, v)]

/-- JavaScript `String#endsWith`: suffix test on the character lists. -/
def jsEndsWith (s pat : String) : Bool :=
  pat.data.isSuffixOf s.data

/-- JavaScript `String#startsWith`: prefix test on the character lists. -/
def jsStartsWith (s pat : String) : Bool :=
  pat.data.isPrefixOf s.data

/-- The client options read by the core: `apiLimit`, `apiMode`,
`apiAttempts`, `apiWait` (from `this.vk.options`). -/
structure Options where
  apiLimit : ℚ
  apiMode : String
  apiAttempts : Nat
  apiWait : ℚ
deriving DecidableEq, Repr

/-- The mutable per-instance state of the `API` class: the queue, the
scheduler-loop guard `started`, the recovery flag `suspended`, and the
base URL stored behind `baseUrlSymbol`. -/
structure API where
  queue : List Request
  started : Bool
  suspended : Bool
  baseUrl : String
deriving DecidableEq, Repr

/-- The constructor's initial state: empty queue, not started, not
suspended, default base URL. -/
def API.init : API :=
  { queue := [], started := false, suspended := false, baseUrl := BASE_URL_API }

/-- `get baseUrl()`: returns the stored base URL. -/
def API.getBaseUrl (a : API) : String :=
  a.baseUrl

/-- `set baseUrl(url)`: appends a trailing slash when the given URL lacks
one, then stores the result. -/
def API.setBaseUrl (a : API) (url : String) : API :=
  { a with baseUrl := if jsEndsWith url "/" then url else url ++ "/" }

/-- The observable events of one asynchronous code path: fixed-duration
waits, future settlements, collaborator invocations, the credential swap
and the scheduler-loop nudges performed by `requeue` and the validation
recovery. -/
inductive Event
  | delayed (ms : ℚ)
  | captchaRejected (e : Err)
  | captchaResolved
  | rejectedResult (e : Err)
  | resolvedResult (v : Settled)
  | invokedCaptchaHandler (sid : String) (img : String)
  | tokenSet (t : String)
  | invokedWorker
deriving DecidableEq, Repr

/-- `API#requeue`: insert the request at the head of the queue and nudge
the scheduler loop (`this.worker()` recorded as an event). -/
def API.requeue (a : API) (r : Request) : API × List Event :=
  ({ a with queue := r :: a.queue }, [Event.invokedWorker])

/-- `API#callWithRequest`: append the request at the tail of the queue,
nudge the scheduler loop, and hand back the request's future. -/
def API.callWithRequest (a : API) (r : Request) : API × List Event :=
  ({ a with queue := a.queue ++ [r] }, [Event.invokedWorker])

/-- The `errors` module's `VKError`, restricted to the `message` field
used by `getRequestHandler`. -/
structure VKError where
  message : String
deriving DecidableEq, Repr

/-- The three pluggable dispatch policies exported by `api/workers`. -/
inductive HandlerKind
  | sequentialKind
  | parallelKind
  | parallelSelectedKind
deriving DecidableEq, Repr

/-- The `requestHandlers` lookup table: maps the mode string to a
dispatch policy, absent keys giving `none`. -/
def requestHandlers (mode : String) : Option HandlerKind :=
  if mode = "sequential" then some HandlerKind.sequentialKind
  else if mode = "parallel" then some HandlerKind.parallelKind
  else if mode = "parallel_selected" then some HandlerKind.parallelSelectedKind
  else none

/-- `getRequestHandler(mode = 'sequential')`: look the mode up in the
table and throw `VKError { message: 'Unsuported api mode' }` when it is
absent. -/
def getRequestHandler (mode : String := "sequential") : Except VKError HandlerKind :=
  match requestHandlers mode with
  | some h => Except.ok h
  | none => Except.error { message := "Unsuported api mode" }

/-- JavaScript `Math.round` on a rational: floor of the value plus one
half. -/
def jsRound (q : ℚ) : ℤ :=
  Rat.floor (q + 1/2)

/-- Outcome of one call to `API#worker`: return immediately because a
loop is already running, spawn the loop (carrying the state as of the
first tick, the chosen dispatch policy and the tick interval), or throw
out of `getRequestHandler` after the guard was already set. -/
inductive WorkerResult
  | noop
  | spawned (st : API) (h : HandlerKind) (intervalMs : ℤ)
  | threw (st : API) (e : VKError)
deriving DecidableEq, Repr

/-- `API#worker`: the re-entrancy-guarded scheduler-loop starter.  If
`started` is set, return at once; otherwise set `started`, resolve the
dispatch policy for `options.apiMode` (which may throw), compute the tick
interval `round(MINIMUM_TIME_INTERVAL_API / apiLimit)` and run the first
tick. -/
def API.worker (a : API) (opts : Options) : WorkerResult :=
  if a.started then
    WorkerResult.noop
  else
    let a1 := { a with started := true }
    match getRequestHandler opts.apiMode with
    | Except.error e => WorkerResult.threw a1 e
    | Except.ok h =>
        WorkerResult.spawned a1 h (jsRound (MINIMUM_TIME_INTERVAL_API / opts.apiLimit))

/-- One tick of the scheduler loop (the inner `work` closure): when the
queue is empty or the instance is suspended, clear `started` and stop
without invoking the dispatch policy (second component `false`);
otherwise hand control to the dispatch policy (second component
`true`). -/
def API.workTick (a : API) : API × Bool :=
  if a.queue.length == 0 || a.suspended then
    ({ a with started := false }, false)
  else
    (a, true)

/-- The resolved outcomes of the external collaborators awaited inside
`handleError`: whether a captcha handler is registered, what (if
anything) the captcha handler passes to its retry callback (an `Error`
or the solved key), and how `AccountVerification#run` settles (an error
or a fresh token). -/
structure HEEnv where
  captchaHandlerRegistered : Bool
  captchaReply : Option (Sum Err String)
  verification : Sum Nat String
deriving DecidableEq, Repr

/-- `API#handleError`: the error classifier / recovery engine, translated
branch by branch from the source.  Returns the instance state, the
(possibly mutated) request, and the event trace of the taken path. -/
def API.handleError (a : API) (opts : Options) (r : Request) (e : APIError)
    (env : HEEnv) : API × Request × List Event :=
  if e.code = TOO_MANY_REQUESTS then
    if a.suspended then
      let p := a.requeue r
      (p.1, r, p.2)
    else
      let a1 := { a with suspended := true }
      let ev1 := Event.delayed (MINIMUM_TIME_INTERVAL_API / opts.apiLimit + 50)
      let a2 := { a1 with suspended := false }
      let p := a2.requeue r
      (p.1, r, ev1 :: p.2)
  else
    let evsC := if r.captcha then [Event.captchaRejected (Err.api e)] else []
    if e.code = USER_VALIDATION_REQUIRED then
      let p1 := if a.suspended then a.requeue r else (a, [])
      let a2 := { p1.1 with suspended := true }
      match env.verification with
      | Sum.inr token =>
          let a3 := { a2 with suspended := false }
          let p2 := a3.requeue r
          (p2.1, r, evsC ++ p1.2 ++ [Event.tokenSet token] ++ p2.2)
      | Sum.inl _verr =>
          let a3 := { a2 with suspended := false }
          (a3, r, evsC ++ p1.2 ++
            [Event.rejectedResult (Err.api e), Event.delayed 15000, Event.invokedWorker])
    else
      let isCaptcha := e.code = CAPTCHA_REQUIRED
      if (isCaptcha ∧ env.captchaHandlerRegistered = false) ∨ ¬isCaptcha then
        (a, r, evsC ++ [Event.rejectedResult (Err.api e)])
      else
        let evH := Event.invokedCaptchaHandler e.captchaSid e.captchaImg
        match env.captchaReply with
        | none => (a, r, evsC ++ [evH])
        | some (Sum.inl kerr) =>
            (a, r, evsC ++ [evH, Event.rejectedResult kerr])
        | some (Sum.inr key) =>
            let r1 := { r with
              params := setParam (setParam r.params "captcha_sid" e.captchaSid)
                "captcha_key" key,
              captcha := true }
            let p := a.requeue r1
            (p.1, r1, evsC ++ [evH] ++ p.2)

/-- The resolved outcome of the awaited transport fetch inside
`callMethod`: a transport-level failure (network error or timeout) or the
parsed JSON body. -/
structure CallEnv where
  transport : Sum Nat JsonResponse
deriving DecidableEq, Repr

/-- `API#callMethod`: the transport invoker, translated branch by branch
from the source.  On transport failure it runs the bounded-retry path; on
an application error it hands off to `handleError`; otherwise it resolves
the request (execute-composite or plain). -/
def API.callMethod (a : API) (opts : Options) (r : Request) (env : CallEnv)
    (henv : HEEnv) : API × Request × List Event :=
  match env.transport with
  | Sum.inl terr =>
      let p := r.addAttempt
      if p.2 ≤ opts.apiAttempts then
        let q := a.requeue p.1
        (q.1, p.1, Event.delayed opts.apiWait :: q.2)
      else
        let evsC := if p.1.captcha then [Event.captchaRejected (Err.transport terr)] else []
        (a, p.1, evsC ++ [Event.rejectedResult (Err.transport terr)])
  | Sum.inr resp =>
      match resp.error with
      | some e => a.handleError opts r e henv
      | none =>
          let evsC := if r.captcha then [Event.captchaResolved] else []
          if jsStartsWith r.method "execute" then
            (a, r, evsC ++ [Event.resolvedResult (Settled.composite resp.response
              ((resp.execute_errors.getD []).map ExecuteError.mk))])
          else
            (a, r, evsC ++ [Event.resolvedResult
              (match resp.response with
               | some v => Settled.value v
               | none => Settled.envelope resp)])

/-! ## Concrete inputs used by the claim theorems and witnesses -/

/-- A plain request with no attached challenge future. -/
def reqPlain : Request :=
  { method := "users.get", params := [], attempts := 0, captcha := false }

/-- Options with limit 3 requests per interval, sequential mode, 3 retry
attempts, 3000ms retry backoff. -/
def optsStd : Options :=
  { apiLimit := 3, apiMode := "sequential", apiAttempts := 3, apiWait := 3000 }

/-- An instance that is suspended (a recovery is in charge) with an empty
queue. -/
def apiSuspended : API :=
  { queue := [], started := false, suspended := true, baseUrl := BASE_URL_API }

/-- A validation-required error naming a redirect target. -/
def errValidation : APIError :=
  { code := USER_VALIDATION_REQUIRED, captchaSid := "", captchaImg := "",
    redirectUri := "https://oauth.example/redirect" }

/-- An environment in which the account verification succeeds with a fresh
token and no captcha handler is registered. -/
def envVerifyOk : HEEnv :=
  { captchaHandlerRegistered := false, captchaReply := none,
    verification := Sum.inr "fresh-token" }

/-- An environment in which the account verification fails and no captcha
handler is registered. -/
def envVerifyFail : HEEnv :=
  { captchaHandlerRegistered := false, captchaReply := none,
    verification := Sum.inl 0 }

/-- A rate-limit-exceeded error. -/
def errTooMany : APIError :=
  { code := TOO_MANY_REQUESTS, captchaSid := "", captchaImg := "", redirectUri := "" }

/-- A challenge-required (captcha) error carrying a sid and an image. -/
def errCaptcha : APIError :=
  { code := CAPTCHA_REQUIRED, captchaSid := "55", captchaImg := "https://img.example/c",
    redirectUri := "" }

/-- An instance whose scheduler loop is already running. -/
def apiStarted : API :=
  { queue := [reqPlain], started := true, suspended := false, baseUrl := BASE_URL_API }

/-- An execute-style batch request. -/
def reqExec : Request :=
  { method := "execute", params := [], attempts := 0, captcha := false }

/-- A successful execute-style response carrying one per-step error. -/
def respExec : JsonResponse :=
  { error := none, response := some (JVal.num 1), execute_errors := some [JVal.str "step"] }

/-- Options naming a dispatch mode absent from the handler table. -/
def optsBad : Options :=
  { apiLimit := 3, apiMode := "random", apiAttempts := 3, apiWait := 3000 }

/-! ## Claims -/

/-- Claim C1 (code bug): the spec's invariant says a Request appears in
the Queue at most once, and in particular a Request routed through the
validation-required recovery while `suspended` is already true must not
be inserted twice.  The code violates this: the already-suspended
pre-step requeues the request but, unlike the rate-limit branch, does not
return, so after a successful verification the same request is requeued a
second time.  Evaluating the embedded handler at that input yields a
queue holding the request twice. -/
theorem validation_requeue_duplicates :
    (API.handleError apiSuspended optsStd reqPlain errValidation envVerifyOk).1.queue
      = [reqPlain, reqPlain] := by
  rfl

/-- Claim C2: on a rate-limit-exceeded error, if `suspended` is already
true the request is only requeued and the handler returns; otherwise
`suspended` is set, the handler waits
`MINIMUM_TIME_INTERVAL_API / apiLimit + 50`, clears `suspended` and
requeues; and in neither case is the request's result future settled. -/
theorem rate_limit_single_flight (a : API) (opts : Options) (r : Request)
    (e : APIError) (env : HEEnv) (h : e.code = TOO_MANY_REQUESTS) :
    (a.suspended = true →
       a.handleError opts r e env =
         ({ a with queue := r :: a.queue }, r, [Event.invokedWorker])) ∧
    (a.suspended = false →
       a.handleError opts r e env =
         ({ a with queue := r :: a.queue, suspended := false }, r,
          [Event.delayed (MINIMUM_TIME_INTERVAL_API / opts.apiLimit + 50),
           Event.invokedWorker])) ∧
    (∀ er, Event.rejectedResult er ∉ (a.handleError opts r e env).2.2) ∧
    (∀ v, Event.resolvedResult v ∉ (a.handleError opts r e env).2.2) := by
  refine ⟨?_, ?_, ?_, ?_⟩
  · intro hs
    simp [API.handleError, API.requeue, h, hs]
  · intro hs
    simp [API.handleError, API.requeue, h, hs]
  · intro er
    cases hs : a.suspended <;> simp [API.handleError, API.requeue, h, hs]
  · intro v
    cases hs : a.suspended <;> simp [API.handleError, API.requeue, h, hs]

/-- Witness for C2: a concrete non-suspended instance takes the
backoff-and-requeue path. -/
theorem rate_limit_single_flight_witness :
    API.handleError API.init optsStd reqPlain errTooMany envVerifyOk =
      ({ API.init with queue := reqPlain :: API.init.queue, suspended := false },
       reqPlain,
       [Event.delayed (MINIMUM_TIME_INTERVAL_API / optsStd.apiLimit + 50),
        Event.invokedWorker]) :=
  (rate_limit_single_flight API.init optsStd reqPlain errTooMany envVerifyOk rfl).2.1 rfl

/-- Claim C3: on a transport failure the attempt counter is incremented;
within the retry ceiling the handler waits `apiWait` and requeues without
settling either future; past the ceiling the challenge future (when
present) and then the result future are rejected with the transport
error, and the request is not requeued (never dispatched again). -/
theorem transport_failure_retry (a : API) (opts : Options) (r : Request)
    (terr : Nat) (cenv : CallEnv) (henv : HEEnv)
    (ht : cenv.transport = Sum.inl terr) :
    ((a.callMethod opts r cenv henv).2.1.attempts = r.attempts + 1) ∧
    (r.attempts + 1 ≤ opts.apiAttempts →
       a.callMethod opts r cenv henv =
         ({ a with queue := { r with attempts := r.attempts + 1 } :: a.queue },
          { r with attempts := r.attempts + 1 },
          [Event.delayed opts.apiWait, Event.invokedWorker])) ∧
    (opts.apiAttempts < r.attempts + 1 →
       a.callMethod opts r cenv henv =
         (a, { r with attempts := r.attempts + 1 },
          (if r.captcha then [Event.captchaRejected (Err.transport terr)] else []) ++
          [Event.rejectedResult (Err.transport terr)])) := by
  refine ⟨?_, ?_, ?_⟩
  · by_cases hle : r.attempts + 1 ≤ opts.apiAttempts <;>
      simp [API.callMethod, Request.addAttempt, API.requeue, ht, hle]
  · intro hle
    simp [API.callMethod, Request.addAttempt, API.requeue, ht, hle]
  · intro hgt
    have hle : ¬(r.attempts + 1 ≤ opts.apiAttempts) := by omega
    simp [API.callMethod, Request.addAttempt, API.requeue, ht, hle]

/-- Witness for C3: a fresh request under ceiling 3 takes the
backoff-and-requeue path with its counter at 1. -/
theorem transport_failure_retry_witness :
    API.callMethod API.init optsStd reqPlain { transport := Sum.inl 0 } envVerifyOk =
      ({ API.init with
           queue := { reqPlain with attempts := reqPlain.attempts + 1 } :: API.init.queue },
       { reqPlain with attempts := reqPlain.attempts + 1 },
       [Event.delayed optsStd.apiWait, Event.invokedWorker]) :=
  (transport_failure_retry API.init optsStd reqPlain 0
    { transport := Sum.inl 0 } envVerifyOk rfl).2.1 (by decide)

/-- Claim C4: `worker` returns at once when `started` is already true (no
second loop), and a newly spawned loop (or the throw out of the handler
lookup) carries a state in which `started` was set true before the first
tick. -/
theorem worker_single_loop (a : API) (opts : Options) :
    (a.started = true → a.worker opts = WorkerResult.noop) ∧
    (a.started = false →
       a.worker opts = WorkerResult.threw { a with started := true }
           { message := "Unsuported api mode" } ∨
       ∃ h, a.worker opts =
         WorkerResult.spawned { a with started := true } h
           (jsRound (MINIMUM_TIME_INTERVAL_API / opts.apiLimit))) := by
  constructor
  · intro hs
    simp [API.worker, hs]
  · intro hs
    cases hh : getRequestHandler opts.apiMode with
    | error e =>
        left
        have : e = { message := "Unsuported api mode" } := by
          revert hh
          unfold getRequestHandler
          cases requestHandlers opts.apiMode <;> simp
          intro h
          exact h.symm
        subst this
        simp [API.worker, hs, hh]
    | ok h =>
        right
        exact ⟨h, by simp [API.worker, hs, hh]⟩

/-- Witness for C4: with a loop already running, a further `worker` call
is a no-op. -/
theorem worker_single_loop_witness :
    apiStarted.worker optsStd = WorkerResult.noop :=
  (worker_single_loop apiStarted optsStd).1 rfl

/-- Claim C5: a scheduler tick at which the queue is empty or the
instance is suspended clears `started` and stops without popping a
request and without handing control to the dispatch policy (second
component `false`). -/
theorem tick_idle_stops (a : API) (h : a.queue = [] ∨ a.suspended = true) :
    a.workTick = ({ a with started := false }, false) := by
  rcases h with h | h <;> simp [API.workTick, h]

/-- Witness for C5: a suspended instance's tick stops the loop. -/
theorem tick_idle_stops_witness :
    apiSuspended.workTick = ({ apiSuspended with started := false }, false) :=
  tick_idle_stops apiSuspended (Or.inr rfl)

/-- Claim C6: on a challenge-required (captcha) error, with no captcha
handler registered the result future is rejected immediately with that
error and nothing is requeued; with a handler registered that resolves
with a key, the challenge sid and the key are written into the request's
params, a fresh challenge future is attached, and the request is requeued
at the head rather than settled. -/
theorem captcha_error_paths (a : API) (opts : Options) (r : Request)
    (e : APIError) (env : HEEnv) (h : e.code = CAPTCHA_REQUIRED) :
    (env.captchaHandlerRegistered = false →
       a.handleError opts r e env =
         (a, r, (if r.captcha then [Event.captchaRejected (Err.api e)] else []) ++
                [Event.rejectedResult (Err.api e)])) ∧
    (∀ key, env.captchaHandlerRegistered = true →
       env.captchaReply = some (Sum.inr key) →
       a.handleError opts r e env =
         ({ a with queue := { r with
              params := setParam (setParam r.params "captcha_sid" e.captchaSid)
                "captcha_key" key,
              captcha := true } :: a.queue },
          { r with
              params := setParam (setParam r.params "captcha_sid" e.captchaSid)
                "captcha_key" key,
              captcha := true },
          (if r.captcha then [Event.captchaRejected (Err.api e)] else []) ++
          [Event.invokedCaptchaHandler e.captchaSid e.captchaImg,
           Event.invokedWorker])) := by
  have h6 : e.code ≠ TOO_MANY_REQUESTS := by
    rw [h]; decide
  have h17 : e.code ≠ USER_VALIDATION_REQUIRED := by
    rw [h]; decide
  constructor
  · intro hreg
    simp [API.handleError, h, h6, h17, hreg,
      CAPTCHA_REQUIRED, TOO_MANY_REQUESTS, USER_VALIDATION_REQUIRED]
  · intro key hreg hrep
    simp [API.handleError, API.requeue, h, h6, h17, hreg, hrep,
      CAPTCHA_REQUIRED, TOO_MANY_REQUESTS, USER_VALIDATION_REQUIRED]

/-- Witness for C6: with no handler registered, a concrete captcha error
rejects the request immediately. -/
theorem captcha_error_paths_witness :
    API.handleError API.init optsStd reqPlain errCaptcha envVerifyOk =
      (API.init, reqPlain, [Event.rejectedResult (Err.api errCaptcha)]) :=
  (captcha_error_paths API.init optsStd reqPlain errCaptcha envVerifyOk rfl).1 rfl

/-- Claim C7: on a validation-required error whose re-authentication run
fails, the result future is rejected with the original validation error
(every settlement in the trace carries it, never the re-authentication
error), then a fixed 15000ms cooldown elapses, `suspended` ends false and
the scheduler loop is nudged again so other queued requests continue. -/
theorem validation_failure_restarts (a : API) (opts : Options) (r : Request)
    (e : APIError) (env : HEEnv) (verr : Nat)
    (h : e.code = USER_VALIDATION_REQUIRED)
    (hv : env.verification = Sum.inl verr) :
    (a.handleError opts r e env).1.suspended = false ∧
    (a.handleError opts r e env).1.queue =
      (if a.suspended then [r] else []) ++ a.queue ∧
    (a.handleError opts r e env).2.2 =
      (if r.captcha then [Event.captchaRejected (Err.api e)] else []) ++
      (if a.suspended then [Event.invokedWorker] else []) ++
      [Event.rejectedResult (Err.api e), Event.delayed 15000,
       Event.invokedWorker] := by
  have h6 : e.code ≠ TOO_MANY_REQUESTS := by
    rw [h]; decide
  cases hs : a.suspended <;>
    simp [API.handleError, API.requeue, h, h6, hv, hs,
      TOO_MANY_REQUESTS, USER_VALIDATION_REQUIRED]

/-- Witness for C7: a concrete failed verification rejects with the
original validation error, waits the cooldown, clears `suspended` and
restarts the loop. -/
theorem validation_failure_restarts_witness :
    (API.handleError API.init optsStd reqPlain errValidation envVerifyFail).1.suspended
        = false ∧
    (API.handleError API.init optsStd reqPlain errValidation envVerifyFail).1.queue
        = API.init.queue ∧
    (API.handleError API.init optsStd reqPlain errValidation envVerifyFail).2.2 =
      [Event.rejectedResult (Err.api errValidation), Event.delayed 15000,
       Event.invokedWorker] :=
  validation_failure_restarts API.init optsStd reqPlain errValidation
    envVerifyFail 0 rfl rfl

/-- Claim C8: an execute-style request whose call succeeds with no
top-level application error resolves with the composite of the primary
response and the (possibly empty) list of per-step execute errors, and no
rejection of the result future occurs. -/
theorem execute_resolves_composite (a : API) (opts : Options) (r : Request)
    (resp : JsonResponse) (cenv : CallEnv) (henv : HEEnv)
    (ht : cenv.transport = Sum.inr resp) (he : resp.error = none)
    (hm : jsStartsWith r.method "execute" = true) :
    a.callMethod opts r cenv henv =
      (a, r, (if r.captcha then [Event.captchaResolved] else []) ++
             [Event.resolvedResult (Settled.composite resp.response
               ((resp.execute_errors.getD []).map ExecuteError.mk))]) ∧
    (∀ er, Event.rejectedResult er ∉ (a.callMethod opts r cenv henv).2.2) := by
  constructor
  · simp [API.callMethod, ht, he, hm]
  · intro er
    cases hc : r.captcha <;> simp [API.callMethod, ht, he, hm, hc]

/-- Witness for C8: a concrete execute response with one per-step error
resolves to the composite value. -/
theorem execute_resolves_composite_witness :
    API.callMethod API.init optsStd reqExec { transport := Sum.inr respExec }
        envVerifyOk =
      (API.init, reqExec,
       [Event.resolvedResult (Settled.composite (some (JVal.num 1))
         [ExecuteError.mk (JVal.str "step")])]) :=
  (execute_resolves_composite API.init optsStd reqExec respExec
    { transport := Sum.inr respExec } envVerifyOk rfl rfl (by decide)).1

/-- Claim C9: after the `baseUrl` setter runs, the getter returns the
given URL with a trailing slash appended when it lacked one and unchanged
otherwise, and the returned value always ends with a slash. -/
theorem baseUrl_normalization (a : API) (url : String) :
    (a.setBaseUrl url).getBaseUrl =
      (if jsEndsWith url "/" then url else url ++ "/") ∧
    jsEndsWith (a.setBaseUrl url).getBaseUrl "/" = true := by
  constructor
  · rfl
  · by_cases h : jsEndsWith url "/" = true
    · simp [API.setBaseUrl, API.getBaseUrl, h]
    · simp only [API.setBaseUrl, API.getBaseUrl, h, if_neg, Bool.not_eq_true] at *
      simp [h, jsEndsWith, List.isSuffixOf, List.isPrefixOf]

/-- Claim C10: any dispatch-mode string outside the three supported modes
makes `getRequestHandler` throw `VKError` with message
'Unsuported api mode', and `worker` on an idle instance propagates that
throw only after `started` has already been set true. -/
theorem unsupported_mode_throws (a : API) (opts : Options)
    (h1 : opts.apiMode ≠ "sequential") (h2 : opts.apiMode ≠ "parallel")
    (h3 : opts.apiMode ≠ "parallel_selected") (hs : a.started = false) :
    getRequestHandler opts.apiMode =
      Except.error { message := "Unsuported api mode" } ∧
    a.worker opts = WorkerResult.threw { a with started := true }
      { message := "Unsuported api mode" } := by
  have hr : requestHandlers opts.apiMode = none := by
    simp [requestHandlers, h1, h2, h3]
  have hg : getRequestHandler opts.apiMode =
      Except.error { message := "Unsuported api mode" } := by
    simp [getRequestHandler, hr]
  exact ⟨hg, by simp [API.worker, hs, hg]⟩

/-- Witness for C10: the mode string "random" throws after the guard was
set. -/
theorem unsupported_mode_throws_witness :
    getRequestHandler optsBad.apiMode =
      Except.error { message := "Unsuported api mode" } ∧
    API.init.worker optsBad = WorkerResult.threw { API.init with started := true }
      { message := "Unsuported api mode" } :=
  unsupported_mode_throws API.init optsBad (by decide) (by decide) (by decide) rfl

end VkIo
